import Mathlib

/-!
Formal model of the request-resilience and cost-accounting engine of the
photography-coach application: the retry/backoff wrapper and error
classifier of src/services/geminiService.ts, the economics calculation at
the end of analyzeImage, the session-history state handling of
src/App.tsx, and the scale-projection arithmetic of
src/components/AnalysisResults.tsx.

Token counts are modelled as integers and monetary amounts as rationals
(the JavaScript numbers involved are integer token counts and products of
those with fixed decimal rates).
-/

set_option maxRecDepth 100000

namespace PhotoCoach

/-- The fixed instructional text sent with every analysis request
(geminiService.ts, `PHOTOGRAPHY_PRINCIPLES`, lines 21-52), embedded
verbatim: the economics calculation derives the static-prompt token
estimate from its length. -/
def PHOTOGRAPHY_PRINCIPLES : String :=
"
You are an expert photography coach. Your goal is to provide constructive criticism to help the photographer improve. You have deep knowledge of:

COMPOSITION RULES:
- Rule of Thirds: Divide frame into 9 equal parts, place subjects at intersections
- Leading Lines: Use natural lines to guide viewer's eye to subject
- Symmetry & Patterns: Create visual harmony through repetition
- Framing: Use environmental elements to frame the subject
- Negative Space: Empty areas that give subjects room to breathe
- Golden Ratio: 1.618:1 proportions for pleasing compositions

LIGHTING FUNDAMENTALS:
- Golden Hour: Warm, soft light during sunrise/sunset
- Blue Hour: Cool, diffused light before sunrise/after sunset
- Hard Light: Creates strong shadows, high contrast
- Soft Light: Diffused, flattering for portraits
- Backlighting: Subject lit from behind, creates rim light
- Fill Light: Reduces shadows in high-contrast scenes

TECHNICAL GUIDELINES:
- Shutter Speed: Fast (>1/500s) freezes motion, slow creates blur
- Aperture: Wide (f/1.4-f/2.8) for shallow depth, narrow (f/8-f/16) for sharpness
- ISO: Low (100-400) for quality, high (1600+) for low light
- Focus: Sharp on subject's eyes (portraits) or primary point of interest
- White Balance: Match light temperature for accurate colors

CREATIVE ELEMENTS:
- Storytelling: Every photo should convey emotion or narrative
- Subject Impact: Clear focal point that draws immediate attention
- Color Harmony: Complementary or analogous color schemes
- Texture & Detail: Visual interest through surface qualities
"

/-- Per-tier rate card: currency per token for fresh input, output and
cached input (geminiService.ts `PRICING` entries). -/
structure PricingEntry where
  input : ℚ
  output : ℚ
  cachedInput : ℚ
deriving DecidableEq

/-- The two-tier rate table (geminiService.ts lines 6-18). -/
structure PricingTable where
  flash : PricingEntry
  pro : PricingEntry

/-- The pricing constants of geminiService.ts lines 6-18 (per-token rates,
stated there per 1M tokens). -/
def PRICING : PricingTable :=
  { flash := { input := 0.075 / 1000000, output := 0.30 / 1000000, cachedInput := 0.01875 / 1000000 }
  , pro := { input := 3.50 / 1000000, output := 10.50 / 1000000, cachedInput := 0.875 / 1000000 } }

/-- An error value as inspected by the service layer: the effective
message string (`error.message || error.toString()`), and the optional
numeric `status` and `code` fields. -/
structure ErrValue where
  msg : String
  status : Option Int
  code : Option Int
deriving DecidableEq

/-- Substring test on character lists: JavaScript `String.includes`. -/
def hasSubList (s pat : List Char) : Bool :=
  match s with
  | [] => pat.isEmpty
  | _ :: t => pat.isPrefixOf s || hasSubList t pat

/-- JavaScript `s.includes(pat)`. -/
def containsSub (s pat : String) : Bool :=
  hasSubList s.toList pat.toList

/-- JavaScript `String.toLowerCase` (the messages involved are ASCII),
character by character. -/
def strLower (s : String) : String :=
  String.mk (s.data.map Char.toLower)

/-- geminiService.ts lines 63-74: an error counts as a permission/access
error when its lower-cased message contains one of the five markers, or
its status is 403 or 404. -/
def isPermissionError (e : ErrValue) : Bool :=
  let msg := strLower e.msg
  containsSub msg "permission denied" ||
  containsSub msg "403" ||
  containsSub msg "404" ||
  containsSub msg "not found" ||
  containsSub msg "billing" ||
  e.status == some 403 ||
  e.status == some 404

/-- The server-fault condition tested inline at geminiService.ts line 105:
`error.status === 500 || error.status === 503 ||
error.message?.includes(\'500\') || error.code === 500`. -/
def isServerFaultError (e : ErrValue) : Bool :=
  e.status == some 500 ||
  e.status == some 503 ||
  containsSub e.msg "500" ||
  e.code == some 500

/-- Outcome of one run of the retry wrapper: the propagated result, the
number of attempts made, and the list of backoff delays (in ms) waited
before each retry, in order. -/
structure RetryResult (α : Type) where
  result : Except ErrValue α
  attempts : Nat
  delays : List Nat

/-- geminiService.ts lines 96-112, `withRetry`. The operation is modelled
as a function of the 0-based attempt index `i`, so that each attempt may
have its own outcome; `retries` and `delay` evolve exactly as in the
source (defaults there: retries = 2, delay = 1000). On success the value
is returned; a permission error is rethrown at once; otherwise, when
retries remain and the server-fault condition holds, the wrapper waits
`delay`, recurses with `retries - 1` and `delay * 2`; any other error is
rethrown. -/
def withRetry {α : Type} (fn : Nat → Except ErrValue α) :
    Nat → Nat → Nat → RetryResult α
  | retries, delay, i =>
    match fn i with
    | .ok v => ⟨.ok v, 1, []⟩
    | .error e =>
      if isPermissionError e then
        ⟨.error e, 1, []⟩
      else
        match retries with
        | 0 => ⟨.error e, 1, []⟩
        | r + 1 =>
          if isServerFaultError e then
            let rest := withRetry fn r (delay * 2) (i + 1)
            ⟨rest.result, rest.attempts + 1, delay :: rest.delays⟩
          else
            ⟨.error e, 1, []⟩

/-- The usage metadata read off the model response (geminiService.ts
lines 246-251); each field is `response.usageMetadata.<field> || 0`.
Token counts are integers, modelled in ℤ so that the `Math.max(0, _)`
clampings of the source stay meaningful. -/
structure UsageMetadata where
  promptTokenCount : ℤ
  candidatesTokenCount : ℤ
  totalTokenCount : ℤ
  cachedContentTokenCount : ℤ
deriving DecidableEq

/-- The `tokenUsage` record built by analyzeImage (geminiService.ts
lines 271-280). -/
structure TokenUsage where
  realCachedTokens : ℤ
  realNewTokens : ℤ
  totalTokens : ℤ
  realCost : ℚ
  projectedCachedTokens : ℤ
  projectedCostWithCache : ℚ
  projectedSavings : ℚ
deriving DecidableEq

/-- The static-prompt token estimate of geminiService.ts line 260:
`Math.floor(PHOTOGRAPHY_PRINCIPLES.length / 4)` (Nat division is the
floor). -/
def approximateStaticTokens : ℤ :=
  Int.ofNat (PHOTOGRAPHY_PRINCIPLES.length / 4)

/-- The economics calculation of analyzeImage (geminiService.ts
lines 242-280) as a pure function of the usage metadata, parameterised by
the pricing entry in use (the source binds `pricing = PRICING.pro` at
line 244; see `computeTokenUsage`). -/
def computeTokenUsageWith (pricing : PricingEntry) (usage : UsageMetadata) : TokenUsage :=
  let rawPromptTokens := usage.promptTokenCount
  let outputTokens := usage.candidatesTokenCount
  let totalTokens := usage.totalTokenCount
  let realCachedTokens := usage.cachedContentTokenCount
  let realNewTokens : ℤ := max 0 (rawPromptTokens - realCachedTokens)
  let realCost : ℚ :=
    (realCachedTokens : ℚ) * pricing.cachedInput +
    (realNewTokens : ℚ) * pricing.input +
    (outputTokens : ℚ) * pricing.output
  let projectedCachedTokens : ℤ := approximateStaticTokens
  let projectedNewTokens : ℤ := max 0 (rawPromptTokens - projectedCachedTokens)
  let projectedCostWithCache : ℚ :=
    (projectedCachedTokens : ℚ) * pricing.cachedInput +
    (projectedNewTokens : ℚ) * pricing.input +
    (outputTokens : ℚ) * pricing.output
  let projectedSavings : ℚ := max 0 (realCost - projectedCostWithCache)
  { realCachedTokens := realCachedTokens
  , realNewTokens := realNewTokens
  , totalTokens := totalTokens
  , realCost := realCost
  , projectedCachedTokens := projectedCachedTokens
  , projectedCostWithCache := projectedCostWithCache
  , projectedSavings := projectedSavings }

/-- The economics calculation as run by analyzeImage: Gemini 3 Pro
pricing (geminiService.ts line 244). -/
def computeTokenUsage (usage : UsageMetadata) : TokenUsage :=
  computeTokenUsageWith PRICING.pro usage

/-- The analysis result, reduced to the parts the accounting engine
touches. The full `PhotoAnalysis` of types.ts (not under src/) also
carries scores, critique, strengths, improvements, learningPath,
settingsEstimate, boundingBoxes and thinking; none of those is read or
written by the cost-accounting code, so they are collapsed into the
opaque `content` payload. -/
structure PhotoAnalysis where
  content : String
  tokenUsage : Option TokenUsage
deriving DecidableEq

/-- The tail of analyzeImage (geminiService.ts lines 242-283): when the
response carries usage metadata, the computed `tokenUsage` record is
attached to the parsed result; otherwise the result is returned
untouched. -/
def analyzeImageResult (parsed : PhotoAnalysis) (usageMetadata : Option UsageMetadata) : PhotoAnalysis :=
  match usageMetadata with
  | some u => { parsed with tokenUsage := some (computeTokenUsage u) }
  | none => parsed

/-- One session-history entry (App.tsx lines 81-90, `SessionCostMetric`). -/
structure SessionCostMetric where
  id : Nat
  timestamp : Nat
  realCost : ℚ
  projectedCost : ℚ
  potentialSavings : ℚ
  cachedTokens : ℤ
  newTokens : ℤ
deriving DecidableEq

/-- The session-history update of App.tsx lines 80-92: build a new metric
whose `id` is `prev.length + 1` and append it at the end. -/
def appendMetric (prev : List SessionCostMetric) (tu : TokenUsage) (now : Nat) :
    List SessionCostMetric :=
  prev ++
    [{ id := prev.length + 1
     , timestamp := now
     , realCost := tu.realCost
     , projectedCost := tu.projectedCostWithCache
     , potentialSavings := tu.projectedSavings
     , cachedTokens := tu.realCachedTokens
     , newTokens := tu.realNewTokens }]

/-- The phases of App.tsx's `AppState`. -/
inductive AppPhase
  | IDLE
  | ANALYZING
  | RESULTS
  | ERROR
deriving DecidableEq

/-- The component state of App.tsx that the claims concern: the pieces of
useState read or written by handleImageSelected and handleReset. Mentor
chat state is reduced to its message list. -/
structure AppModel where
  appState : AppPhase
  currentImage : Option String
  analysis : Option PhotoAnalysis
  error : Option String
  sessionHistory : List SessionCostMetric
  mentorMessages : List String
deriving DecidableEq

/-- The successful path of handleImageSelected (App.tsx lines 62-95):
the pre-try state updates, then `setAnalysis(result)`, then the
session-history append guarded by `result.tokenUsage`, then
`setAppState(RESULTS)`. `result` is the value returned by analyzeImage
and `now` the timestamp taken at the append. -/
def handleImageSelectedSuccess (s : AppModel) (base64 : String)
    (result : PhotoAnalysis) (now : Nat) : AppModel :=
  let s1 := { s with currentImage := some base64
                   , appState := AppPhase.ANALYZING
                   , error := none
                   , mentorMessages := [] }
  let s2 := { s1 with analysis := some result }
  let s3 :=
    match result.tokenUsage with
    | some tu => { s2 with sessionHistory := appendMetric s2.sessionHistory tu now }
    | none => s2
  { s3 with appState := AppPhase.RESULTS }

/-- handleReset (App.tsx lines 135-141): resets the app phase, the
current image, the analysis, the error and the mentor chat. It does not
touch `sessionHistory`. -/
def handleReset (s : AppModel) : AppModel :=
  { s with appState := AppPhase.IDLE
         , currentImage := none
         , analysis := none
         , error := none
         , mentorMessages := [] }

/-- Ledger state after a sequence of appends: each operation is the
token-usage record and timestamp of one completed analysis. -/
def ledgerAfterAppends (init : List SessionCostMetric)
    (ops : List (TokenUsage × Nat)) : List SessionCostMetric :=
  ops.foldl (fun h op => appendMetric h op.1 op.2) init

/-- AnalysisResults.tsx line 376: session-wide sum of potential savings. -/
def totalPotentialSavings (h : List SessionCostMetric) : ℚ :=
  h.foldl (fun acc c => acc + c.potentialSavings) 0

/-- AnalysisResults.tsx lines 379-381: mean projected cost over the
session history, 0 on an empty history. -/
def averageCostWithCache (h : List SessionCostMetric) : ℚ :=
  if 0 < h.length then
    (h.foldl (fun acc c => acc + c.projectedCost) 0) / (h.length : ℚ)
  else 0

/-- AnalysisResults.tsx lines 382-384: mean real cost over the session
history, 0 on an empty history. -/
def averageRealCost (h : List SessionCostMetric) : ℚ :=
  if 0 < h.length then
    (h.foldl (fun acc c => acc + c.realCost) 0) / (h.length : ℚ)
  else 0

/-- AnalysisResults.tsx line 386, generalised over the scale factor: the
source instantiates n = 1000 (`projectedAt1000`). -/
def projectedAtScale (h : List SessionCostMetric) (n : ℚ) : ℚ :=
  averageCostWithCache h * n

/-- AnalysisResults.tsx line 387, generalised over the scale factor: the
source instantiates n = 1000 (`realAt1000`). -/
def realAtScale (h : List SessionCostMetric) (n : ℚ) : ℚ :=
  averageRealCost h * n

/-- AnalysisResults.tsx line 388: projected savings at scale. -/
def savingsAtScale (h : List SessionCostMetric) (n : ℚ) : ℚ :=
  realAtScale h n - projectedAtScale h n

/-- AnalysisResults.tsx line 389: savings percentage at scale, 0 when the
real cost at scale is not positive. -/
def savingsPercent (h : List SessionCostMetric) (n : ℚ) : ℚ :=
  if 0 < realAtScale h n then savingsAtScale h n / realAtScale h n * 100 else 0

/-- The static text has 1559 characters, so the static-prompt token
estimate of geminiService.ts line 260 is `floor(1559 / 4) = 389`. -/
lemma approximateStaticTokens_eq : approximateStaticTokens = 389 := by decide

/-- C1: the claim states `projectedCachedTokens =
min(staticPromptTokenEstimate, usage.rawPromptTokens)`, but analyzeImage
(geminiService.ts line 261) assigns the static estimate unconditionally:
on a usage record with 100 raw prompt tokens the projected cached count
is 389, not `min 389 100 = 100`. -/
theorem projectedCachedTokens_not_min_cex :
    ¬ ((computeTokenUsage ⟨100, 0, 100, 0⟩).projectedCachedTokens =
        min approximateStaticTokens (UsageMetadata.mk 100 0 100 0).promptTokenCount) := by
  decide

/-- C1 (amended): for every usage record, `projectedCachedTokens` equals
the static-prompt token estimate 389 unconditionally — it may exceed
`usage.rawPromptTokens` — and the projected cost uses `projectedNewTokens
= max(0, rawPromptTokens − projectedCachedTokens)` together with the
output tokens, exactly as in geminiService.ts lines 261-267. -/
theorem projectedCachedTokens_unclamped (u : UsageMetadata) :
    (computeTokenUsage u).projectedCachedTokens = 389 ∧
    (computeTokenUsage u).projectedCostWithCache =
      (389 : ℚ) * PRICING.pro.cachedInput +
        ((max 0 (u.promptTokenCount - 389) : ℤ) : ℚ) * PRICING.pro.input +
        (u.candidatesTokenCount : ℚ) * PRICING.pro.output := by
  constructor
  · simp [computeTokenUsage, computeTokenUsageWith, approximateStaticTokens_eq]
  · simp [computeTokenUsage, computeTokenUsageWith, approximateStaticTokens_eq]

/-- C3: the claim states the all-zero usage record yields an all-zero
cost record, but the code assigns `projectedCachedTokens = 389` (the
static estimate) regardless of the raw prompt token count. -/
theorem compute_zero_usage_cex :
    ¬ ((computeTokenUsage ⟨0, 0, 0, 0⟩).projectedCachedTokens = 0) := by
  decide

/-- C3 (amended): on the all-zero usage record (`rawPromptTokens = 0` and
every other count 0), the calculation completes without error and the
real fields and the clamped savings are all zero, but
`projectedCachedTokens` is the static estimate 389 and
`projectedCostWithCache` is the corresponding positive cached-input cost. -/
theorem compute_zero_usage :
    computeTokenUsage ⟨0, 0, 0, 0⟩ =
      ⟨0, 0, 0, 0, 389, 389 * (0.875 / 1000000 : ℚ), 0⟩ ∧
    (0 : ℚ) < 389 * (0.875 / 1000000 : ℚ) := by
  constructor
  · norm_num [computeTokenUsage, computeTokenUsageWith, approximateStaticTokens_eq, PRICING]
  · norm_num

/-- Unfolds one step of `withRetry` when the current attempt fails with a
retryable error and retries remain. -/
lemma withRetry_transient_step {α : Type} (fn : Nat → Except ErrValue α)
    (e : ErrValue) (r d i : Nat) (hfn : fn i = Except.error e)
    (hperm : isPermissionError e = false) (hfault : isServerFaultError e = true) :
    withRetry fn (r + 1) d i =
      ⟨(withRetry fn r (d * 2) (i + 1)).result,
       (withRetry fn r (d * 2) (i + 1)).attempts + 1,
       d :: (withRetry fn r (d * 2) (i + 1)).delays⟩ := by
  rw [withRetry, hfn]
  simp [hperm, hfault]

/-- Unfolds `withRetry` when the current attempt fails with an error that
is neither a permission error nor a retryable server fault: the error is
rethrown at once. -/
lemma withRetry_other_step {α : Type} (fn : Nat → Except ErrValue α)
    (e : ErrValue) (r d i : Nat) (hfn : fn i = Except.error e)
    (hperm : isPermissionError e = false) (hfault : isServerFaultError e = false) :
    withRetry fn r d i = ⟨Except.error e, 1, []⟩ := by
  rw [withRetry, hfn]
  cases r <;> simp [hperm, hfault]

/-- Unfolds `withRetry` when the current attempt fails with a permission
error: the error is rethrown at once, whatever the remaining budget. -/
lemma withRetry_perm_step {α : Type} (fn : Nat → Except ErrValue α)
    (e : ErrValue) (r d i : Nat) (hfn : fn i = Except.error e)
    (hperm : isPermissionError e = true) :
    withRetry fn r d i = ⟨Except.error e, 1, []⟩ := by
  rw [withRetry, hfn]
  simp [hperm]

/-- On an operation whose every attempt fails with a retryable,
non-permission error, `withRetry` starting at attempt `i` with budget `r`
makes `r + 1` attempts, waits the doubling delays, and propagates the
error of the last attempt. -/
lemma withRetry_all_transient {α : Type} (es : Nat → ErrValue)
    (h1 : ∀ j, isPermissionError (es j) = false)
    (h2 : ∀ j, isServerFaultError (es j) = true) :
    ∀ (r d i : Nat),
      withRetry (fun j => (Except.error (es j) : Except ErrValue α)) r d i =
        ⟨Except.error (es (i + r)), r + 1, (List.range r).map fun k => d * 2 ^ k⟩ := by
  intro r
  induction r with
  | zero =>
    intro d i
    rw [withRetry]
    simp [h1 i]
  | succ r ih =>
    intro d i
    rw [withRetry_transient_step (fun j => (Except.error (es j) : Except ErrValue α))
          (es i) r d i rfl (h1 i) (h2 i), ih (d * 2) (i + 1)]
    have harg : i + 1 + r = i + (r + 1) := by omega
    have hdel : (List.range (r + 1)).map (fun k => d * 2 ^ k) =
        d :: (List.range r).map fun k => d * 2 * 2 ^ k := by
      rw [List.range_succ_eq_map, List.map_cons, List.map_map]
      have hf : ((fun k => d * 2 ^ k) ∘ Nat.succ) = fun k => d * 2 * 2 ^ k := by
        funext k
        simp [Function.comp, pow_succ]
        ring
      simp [hf]
    rw [harg, hdel]

/-- C4: on an operation that fails with a retryable (transient,
non-permission) error at every attempt, `withRetry` with budget
`maxRetries = r` and initial delay `d` makes exactly `r + 1` attempts,
waits `d, 2d, 4d, …` — that is, `d × 2^(attempt−1)` before each retry —
and propagates the error of the final attempt. -/
theorem retry_always_transient {α : Type} (es : Nat → ErrValue) (r d : Nat)
    (h1 : ∀ j, isPermissionError (es j) = false)
    (h2 : ∀ j, isServerFaultError (es j) = true) :
    withRetry (fun j => (Except.error (es j) : Except ErrValue α)) r d 0 =
      ⟨Except.error (es r), r + 1, (List.range r).map fun k => d * 2 ^ k⟩ := by
  have h := withRetry_all_transient (α := α) es h1 h2 r d 0
  simpa using h

/-- C4 witness: a persistent HTTP 500 error under the source's default
budget (2 retries, 1000 ms): three attempts, delays 1000 ms then 2000 ms,
and the error is propagated. -/
theorem retry_always_transient_witness :
    (∀ j : Nat, isPermissionError ⟨"Internal 500", none, none⟩ = false) ∧
    (∀ j : Nat, isServerFaultError ⟨"Internal 500", none, none⟩ = true) ∧
    withRetry (fun _ => (Except.error ⟨"Internal 500", none, none⟩ : Except ErrValue Unit)) 2 1000 0 =
      ⟨Except.error ⟨"Internal 500", none, none⟩, 3, [1000, 2000]⟩ :=
  ⟨fun _ => by decide, fun _ => by decide,
    (retry_always_transient (fun _ => ⟨"Internal 500", none, none⟩) 2 1000
        (fun _ => rfl) (fun _ => rfl)).trans rfl⟩

/-- C5: on an operation whose first attempt fails with a permission
(FATAL) error, `withRetry` performs exactly one attempt, waits no delay,
and propagates the error immediately, whatever retry budget remains. -/
theorem retry_fatal_immediate {α : Type} (fn : Nat → Except ErrValue α)
    (e : ErrValue) (r d : Nat) (hfn : fn 0 = Except.error e)
    (hperm : isPermissionError e = true) :
    withRetry fn r d 0 = ⟨Except.error e, 1, []⟩ :=
  withRetry_perm_step fn e r d 0 hfn hperm

/-- C5 witness: a "permission denied" error with the full default budget
remaining is propagated after a single attempt with no delays. -/
theorem retry_fatal_immediate_witness :
    (fun _ : Nat => (Except.error ⟨"permission denied", none, none⟩ : Except ErrValue Unit)) 0 =
      Except.error ⟨"permission denied", none, none⟩ ∧
    isPermissionError ⟨"permission denied", none, none⟩ = true ∧
    withRetry (fun _ => (Except.error ⟨"permission denied", none, none⟩ : Except ErrValue Unit)) 2 1000 0 =
      ⟨Except.error ⟨"permission denied", none, none⟩, 1, []⟩ :=
  ⟨rfl, by decide,
    retry_fatal_immediate (fun _ => Except.error ⟨"permission denied", none, none⟩)
      ⟨"permission denied", none, none⟩ 2 1000 rfl (by decide)⟩

/-- C6: the classifier marks an error FATAL (permission error, never
retried) exactly when its lower-cased message contains "permission
denied", "403", "404", "not found" or "billing", or its status is 403 or
404; it marks server faults — status 500 or 503, code 500, or a message
containing "500" — retryable; a retryable non-fatal failure with budget
remaining is retried (more than one attempt), while an error matching
neither pattern is propagated after a single attempt with no delay, i.e.
treated exactly like a FATAL error. -/
theorem error_classification :
    (∀ e : ErrValue, isPermissionError e = true ↔
      (containsSub (strLower e.msg) "permission denied" = true ∨
       containsSub (strLower e.msg) "403" = true ∨
       containsSub (strLower e.msg) "404" = true ∨
       containsSub (strLower e.msg) "not found" = true ∨
       containsSub (strLower e.msg) "billing" = true ∨
       e.status = some 403 ∨ e.status = some 404)) ∧
    (∀ e : ErrValue, isServerFaultError e = true ↔
      (e.status = some 500 ∨ e.status = some 503 ∨
       containsSub e.msg "500" = true ∨ e.code = some 500)) ∧
    (∀ (α : Type) (e : ErrValue) (r d : Nat),
      isServerFaultError e = true → isPermissionError e = false →
      1 < (withRetry (fun _ => (Except.error e : Except ErrValue α)) (r + 1) d 0).attempts) ∧
    (∀ (α : Type) (e : ErrValue) (r d : Nat),
      isPermissionError e = false → isServerFaultError e = false →
      withRetry (fun _ => (Except.error e : Except ErrValue α)) r d 0 =
        ⟨Except.error e, 1, []⟩) := by
  refine ⟨?_, ?_, ?_, ?_⟩
  · intro e
    simp only [isPermissionError, Bool.or_eq_true, beq_iff_eq]
    tauto
  · intro e
    simp only [isServerFaultError, Bool.or_eq_true, beq_iff_eq]
    tauto
  · intro α e r d hfault hperm
    have h := withRetry_all_transient (α := α) (fun _ => e)
      (fun _ => hperm) (fun _ => hfault) (r + 1) d 0
    rw [h]
    simp
  · intro α e r d hperm hfault
    exact withRetry_other_step (fun _ => (Except.error e : Except ErrValue α))
      e r d 0 rfl hperm hfault

/-- C6 witness: a bare HTTP 500 error is classified retryable and not
fatal, and is indeed retried under the default budget, while an
unrecognised error message with no status is classified by neither
pattern and is propagated after one attempt with no delay. -/
theorem error_classification_witness :
    isServerFaultError ⟨"Internal 500", none, none⟩ = true ∧
    isPermissionError ⟨"Internal 500", none, none⟩ = false ∧
    1 < (withRetry (fun _ => (Except.error ⟨"Internal 500", none, none⟩ : Except ErrValue Unit)) 2 1000 0).attempts ∧
    isPermissionError ⟨"socket hang up", none, none⟩ = false ∧
    isServerFaultError ⟨"socket hang up", none, none⟩ = false ∧
    withRetry (fun _ => (Except.error ⟨"socket hang up", none, none⟩ : Except ErrValue Unit)) 2 1000 0 =
      ⟨Except.error ⟨"socket hang up", none, none⟩, 1, []⟩ :=
  ⟨by decide, by decide,
    error_classification.2.2.1 Unit ⟨"Internal 500", none, none⟩ 1 1000 (by decide) (by decide),
    by decide, by decide,
    error_classification.2.2.2 Unit ⟨"socket hang up", none, none⟩ 2 1000 (by decide) (by decide)⟩

/-- C9: an error matching both the fatal pattern (message containing
"permission denied", "403", "404", "not found" or "billing", or status
403/404) and the transient server-fault pattern (status 500/503, code
500, or message containing "500") is propagated immediately after one
attempt with no delay: `isPermissionError` is tested first, so the fatal
classification takes precedence. -/
theorem fatal_precedence {α : Type} (e : ErrValue) (r d : Nat)
    (hperm : isPermissionError e = true) (hfault : isServerFaultError e = true) :
    withRetry (fun _ => (Except.error e : Except ErrValue α)) r d 0 =
      ⟨Except.error e, 1, []⟩ :=
  withRetry_perm_step (fun _ => (Except.error e : Except ErrValue α)) e r d 0 rfl hperm

/-- C9 witness: an error whose message contains "403" but whose status is
500 matches both patterns; under the default budget it is propagated
after a single attempt with no delay. -/
theorem fatal_precedence_witness :
    isPermissionError ⟨"Error 403 from server", some 500, none⟩ = true ∧
    isServerFaultError ⟨"Error 403 from server", some 500, none⟩ = true ∧
    withRetry (fun _ => (Except.error ⟨"Error 403 from server", some 500, none⟩ : Except ErrValue Unit)) 2 1000 0 =
      ⟨Except.error ⟨"Error 403 from server", some 500, none⟩, 1, []⟩ :=
  ⟨by decide, by decide,
    fatal_precedence ⟨"Error 403 from server", some 500, none⟩ 2 1000 (by decide) (by decide)⟩

/-- C7: for every pricing entry with non-negative rates and every usage
record with non-negative token counts — the all-zero record included —
the computed real cost and projected cost are non-negative, and the
projected savings are `max(0, realCost − projectedCostWithCache)`, so
never negative. -/
theorem costs_nonneg (p : PricingEntry) (u : UsageMetadata)
    (hi : 0 ≤ p.input) (ho : 0 ≤ p.output) (hc : 0 ≤ p.cachedInput)
    (hraw : 0 ≤ u.promptTokenCount) (hout : 0 ≤ u.candidatesTokenCount)
    (hcache : 0 ≤ u.cachedContentTokenCount) :
    0 ≤ (computeTokenUsageWith p u).realCost ∧
    0 ≤ (computeTokenUsageWith p u).projectedCostWithCache ∧
    (computeTokenUsageWith p u).projectedSavings =
      max 0 ((computeTokenUsageWith p u).realCost -
        (computeTokenUsageWith p u).projectedCostWithCache) ∧
    0 ≤ (computeTokenUsageWith p u).projectedSavings := by
  have hnewR : (0 : ℚ) ≤ ((max 0 (u.promptTokenCount - u.cachedContentTokenCount) : ℤ) : ℚ) := by
    exact_mod_cast le_max_left 0 (u.promptTokenCount - u.cachedContentTokenCount)
  have hnewP : (0 : ℚ) ≤ ((max 0 (u.promptTokenCount - approximateStaticTokens) : ℤ) : ℚ) := by
    exact_mod_cast le_max_left 0 (u.promptTokenCount - approximateStaticTokens)
  have hcacheQ : (0 : ℚ) ≤ (u.cachedContentTokenCount : ℚ) := by exact_mod_cast hcache
  have houtQ : (0 : ℚ) ≤ (u.candidatesTokenCount : ℚ) := by exact_mod_cast hout
  have hstatic : (0 : ℚ) ≤ ((approximateStaticTokens : ℤ) : ℚ) := by
    rw [approximateStaticTokens_eq]
    norm_num
  have hreal : 0 ≤ (computeTokenUsageWith p u).realCost := by
    simp only [computeTokenUsageWith]
    exact add_nonneg (add_nonneg (mul_nonneg hcacheQ hc) (mul_nonneg hnewR hi))
      (mul_nonneg houtQ ho)
  have hproj : 0 ≤ (computeTokenUsageWith p u).projectedCostWithCache := by
    simp only [computeTokenUsageWith]
    exact add_nonneg (add_nonneg (mul_nonneg hstatic hc) (mul_nonneg hnewP hi))
      (mul_nonneg houtQ ho)
  refine ⟨hreal, hproj, rfl, ?_⟩
  simp only [computeTokenUsageWith]
  exact le_max_left 0 _

/-- C7 witness: the concrete scenario of the spec (3000 prompt tokens,
500 output tokens, no cache hit) under the Gemini 3 Pro rates. -/
theorem costs_nonneg_witness :
    (0 : ℚ) ≤ PRICING.pro.input ∧ (0 : ℚ) ≤ PRICING.pro.output ∧
    (0 : ℚ) ≤ PRICING.pro.cachedInput ∧
    (0 : ℤ) ≤ (UsageMetadata.mk 3000 500 3500 0).promptTokenCount ∧
    (0 : ℤ) ≤ (UsageMetadata.mk 3000 500 3500 0).candidatesTokenCount ∧
    (0 : ℤ) ≤ (UsageMetadata.mk 3000 500 3500 0).cachedContentTokenCount ∧
    (0 ≤ (computeTokenUsageWith PRICING.pro ⟨3000, 500, 3500, 0⟩).realCost ∧
     0 ≤ (computeTokenUsageWith PRICING.pro ⟨3000, 500, 3500, 0⟩).projectedCostWithCache ∧
     (computeTokenUsageWith PRICING.pro ⟨3000, 500, 3500, 0⟩).projectedSavings =
       max 0 ((computeTokenUsageWith PRICING.pro ⟨3000, 500, 3500, 0⟩).realCost -
         (computeTokenUsageWith PRICING.pro ⟨3000, 500, 3500, 0⟩).projectedCostWithCache) ∧
     0 ≤ (computeTokenUsageWith PRICING.pro ⟨3000, 500, 3500, 0⟩).projectedSavings) :=
  ⟨by norm_num [PRICING], by norm_num [PRICING], by norm_num [PRICING],
   by norm_num, by norm_num, by norm_num,
   costs_nonneg PRICING.pro ⟨3000, 500, 3500, 0⟩ (by norm_num [PRICING])
     (by norm_num [PRICING]) (by norm_num [PRICING]) (by norm_num) (by norm_num)
     (by norm_num)⟩

/-- The ids of an appended ledger are the old ids followed by the old
length plus one (App.tsx lines 80-92). -/
lemma map_id_appendMetric (prev : List SessionCostMetric) (tu : TokenUsage) (now : Nat) :
    (appendMetric prev tu now).map SessionCostMetric.id =
      prev.map SessionCostMetric.id ++ [prev.length + 1] := by
  simp [appendMetric]

/-- After any sequence of appends on top of `init`, the assigned ids
continue `init.length + 1, init.length + 2, …`. -/
lemma map_id_ledgerAfterAppends (ops : List (TokenUsage × Nat)) :
    ∀ init : List SessionCostMetric,
      (ledgerAfterAppends init ops).map SessionCostMetric.id =
        init.map SessionCostMetric.id ++ List.range' (init.length + 1) ops.length := by
  induction ops with
  | nil =>
    intro init
    simp [ledgerAfterAppends]
  | cons op rest ih =>
    intro init
    have h1 : ledgerAfterAppends init (op :: rest) =
        ledgerAfterAppends (appendMetric init op.1 op.2) rest := by
      simp [ledgerAfterAppends]
    have hlen : (appendMetric init op.1 op.2).length = init.length + 1 := by
      simp [appendMetric]
    rw [h1, ih (appendMetric init op.1 op.2), map_id_appendMetric, hlen,
      List.length_cons, List.range'_succ]
    simp

/-- C2: the claim states that `reset()` clears the ledger so that the
first append after a reset receives sequenceId 1. In the code
(App.tsx lines 135-141) handleReset does not touch `sessionHistory`:
starting from a fresh state, analysing one image (one ledger entry),
resetting, and appending again yields ids `[1, 2]` — the post-reset
append receives id 2, and the ledger was not cleared. -/
theorem reset_not_clearing_cex :
    (appendMetric
        (handleReset
          (handleImageSelectedSuccess ⟨AppPhase.IDLE, none, none, none, [], []⟩ "img"
            ⟨"analysis", some ⟨0, 0, 0, 0, 389, 0, 0⟩⟩ 0)).sessionHistory
        ⟨0, 0, 0, 0, 389, 0, 0⟩ 1).map SessionCostMetric.id = [1, 2] ∧
    (handleReset
        (handleImageSelectedSuccess ⟨AppPhase.IDLE, none, none, none, [], []⟩ "img"
          ⟨"analysis", some ⟨0, 0, 0, 0, 389, 0, 0⟩⟩ 0)).sessionHistory ≠ [] := by
  constructor
  · rfl
  · decide

/-- C2 (amended): append assigns sequenceIds `1, 2, 3, …`, strictly
increasing in append order (each new id is the previous length plus one);
but handleReset leaves the ledger unchanged, so the first append after a
reset receives `previousLength + 1`, not 1. -/
theorem ledger_ids_and_reset :
    (∀ ops : List (TokenUsage × Nat),
      (ledgerAfterAppends [] ops).map SessionCostMetric.id = List.range' 1 ops.length) ∧
    (∀ s : AppModel, (handleReset s).sessionHistory = s.sessionHistory) ∧
    (∀ (s : AppModel) (tu : TokenUsage) (now : Nat),
      (appendMetric (handleReset s).sessionHistory tu now).map SessionCostMetric.id =
        s.sessionHistory.map SessionCostMetric.id ++ [s.sessionHistory.length + 1]) := by
  refine ⟨?_, ?_, ?_⟩
  · intro ops
    simpa using map_id_ledgerAfterAppends ops []
  · intro s
    rfl
  · intro s tu now
    rw [map_id_appendMetric]
    rfl

/-- C8: `projectAtScale` multiplies the mean real and mean projected cost
by the scale; on the empty ledger every output is zero (never undefined);
and on the two-entry ledger with real costs 0.002, 0.003 and projected
costs 0.001, 0.0012, scaling to 1000 requests yields real 2.5, projected
1.1, savings 1.4 and 56% savings. -/
theorem projectAtScale_props :
    (∀ n : ℚ, realAtScale [] n = 0 ∧ projectedAtScale [] n = 0 ∧
      savingsAtScale [] n = 0 ∧ savingsPercent [] n = 0) ∧
    (∀ (h : List SessionCostMetric) (n : ℚ),
      realAtScale h n = averageRealCost h * n ∧
      projectedAtScale h n = averageCostWithCache h * n) ∧
    (realAtScale
        [⟨1, 0, 0.002, 0.001, 0, 0, 0⟩, ⟨2, 0, 0.003, 0.0012, 0, 0, 0⟩] 1000 = 2.5 ∧
     projectedAtScale
        [⟨1, 0, 0.002, 0.001, 0, 0, 0⟩, ⟨2, 0, 0.003, 0.0012, 0, 0, 0⟩] 1000 = 1.1 ∧
     savingsAtScale
        [⟨1, 0, 0.002, 0.001, 0, 0, 0⟩, ⟨2, 0, 0.003, 0.0012, 0, 0, 0⟩] 1000 = 1.4 ∧
     savingsPercent
        [⟨1, 0, 0.002, 0.001, 0, 0, 0⟩, ⟨2, 0, 0.003, 0.0012, 0, 0, 0⟩] 1000 = 56) := by
  refine ⟨?_, ?_, ?_⟩
  · intro n
    refine ⟨?_, ?_, ?_, ?_⟩ <;>
      simp [realAtScale, projectedAtScale, savingsAtScale, savingsPercent,
        averageRealCost, averageCostWithCache]
  · intro h n
    exact ⟨rfl, rfl⟩
  · refine ⟨?_, ?_, ?_, ?_⟩ <;>
      norm_num [realAtScale, projectedAtScale, savingsAtScale, savingsPercent,
        averageRealCost, averageCostWithCache, List.foldl]

/-- C10: when the remote response carries no usage metadata, analyzeImage
returns the parsed result with no `tokenUsage` record attached, and the
success path of handleImageSelected leaves the session history exactly as
it was. -/
theorem no_usage_no_ledger_entry (parsed : PhotoAnalysis) (s : AppModel)
    (b64 : String) (now : Nat) (hp : parsed.tokenUsage = none) :
    (analyzeImageResult parsed none).tokenUsage = none ∧
    (handleImageSelectedSuccess s b64 (analyzeImageResult parsed none) now).sessionHistory =
      s.sessionHistory := by
  constructor
  · simpa [analyzeImageResult] using hp
  · simp [analyzeImageResult, handleImageSelectedSuccess, hp]

/-- C10 witness: a parsed analysis without `tokenUsage`, processed with
no usage metadata from a fresh app state, leaves the (empty) session
history untouched. -/
theorem no_usage_no_ledger_entry_witness :
    (PhotoAnalysis.mk "analysis" none).tokenUsage = none ∧
    ((analyzeImageResult ⟨"analysis", none⟩ none).tokenUsage = none ∧
     (handleImageSelectedSuccess ⟨AppPhase.IDLE, none, none, none, [], []⟩ "img"
        (analyzeImageResult ⟨"analysis", none⟩ none) 0).sessionHistory =
       (AppModel.mk AppPhase.IDLE none none none [] []).sessionHistory) :=
  ⟨rfl, no_usage_no_ledger_entry ⟨"analysis", none⟩ ⟨AppPhase.IDLE, none, none, none, [], []⟩
    "img" 0 rfl⟩

end PhotoCoach
